import Mathlib

/-!
Verification development for the WhatsApp chatbot webhook application
(`app/whatsapp/app.py`, `chat/handlers/openai/completions.py`).

The Python source is shallowly embedded: the Flask handler
`reply_to_whatsapp_message` becomes a pure function from its inputs (request
fields, the stored chat session, and an environment record holding the results
of the external calls it makes) to an outcome record (HTTP result, final
session state, and the ordered list of observable effects it performed).
Helper functions (`check_message_empty`, `message_empty_or_goodbye`,
`chat_completion`, the module-level `start_template` initialisation) are
embedded one-to-one.  Collaborators imported from modules that are not part
of the source tree (`app.handlers`, `app.whatsapp.chat`,
`chat.clients.twilio`) are modelled from the specification; each such
definition carries a doc comment starting with `Modelled from the spec:`.
-/

namespace WhatsAppBot

/-- Message roles, as used by the chat manager (`system` / `user` / `assistant`). -/
inductive Role where
  | system
  | user
  | assistant
deriving DecidableEq, Repr

/-- One turn of a conversation: a role-tagged text content.
Media attachments are resolved to text before the handler logic that the
claims concern, so they are not part of the embedded message. -/
structure Message where
  role : Role
  content : String
deriving DecidableEq, Repr

/-- `Sender` from `app.whatsapp.chat`: built in the handler from the request
values `From` and `ProfileName` (falling back to `From`). -/
structure Sender where
  phone_number : String
  name : String
deriving DecidableEq, Repr

/-- The per-sender conversation state held by the chat manager.
`messages` is the ordered history with index 0 reserved for the system
prompt; `start_system_message` is the (formatted) system prompt text stored
on the session; `goodbye_message` is the configured goodbye template. -/
structure ChatSession where
  sender : Sender
  messages : List Message
  start_system_message : Option String
  goodbye_message : String
deriving DecidableEq, Repr

/-- The module-level `chat_options` dictionary of `app/whatsapp/app.py`
(lines 44-51): model name, optional agent name, the (unformatted) start
template loaded at module initialisation, the goodbye message literal, and
the two feature flags. -/
structure ChatOptions where
  model : String
  agent_name : Option String
  start_system_message : Option String
  goodbye_message : String
  voice_transcription : Bool
  allow_images : Bool
deriving DecidableEq, Repr

/-! ### Python string primitives

The handler logic uses Python's `str.strip`, `str.lower`, `str.replace` and
substring search.  They are embedded here by structural recursion over the
underlying character list, so that every concrete instance reduces inside
the kernel. -/

/-- The whitespace characters recognised by Python's `str.strip()`. -/
def isPyWhitespace (c : Char) : Bool :=
  c = ' ' || c = '\t' || c = '\n' || c = '\r' || c = '\x0B' || c = '\x0C'

/-- Python `str.strip()`: remove leading and trailing whitespace. -/
def pyStrip (s : String) : String :=
  ⟨((s.data.dropWhile isPyWhitespace).reverse.dropWhile isPyWhitespace).reverse⟩

/-- Python `str.lower()` on an ASCII letter. -/
def pyLowerChar (c : Char) : Char :=
  if 65 ≤ c.toNat && c.toNat ≤ 90 then Char.ofNat (c.toNat + 32) else c

/-- Python `str.lower()` (ASCII range, which covers every use here). -/
def pyLower (s : String) : String := ⟨s.data.map pyLowerChar⟩

/-- `leadsWith pat l` holds when `pat` is an initial segment of `l`. -/
def leadsWith : List Char → List Char → Bool
  | [], _ => true
  | _ :: _, [] => false
  | a :: p, b :: l => a = b && leadsWith p l

/-- Split `l` around the first occurrence of the nonempty pattern `pat`:
the part strictly before it and the part strictly after it, or `none` when
`pat` does not occur in `l`. -/
def splitFirst (pat : List Char) : List Char → Option (List Char × List Char)
  | [] => none
  | c :: rest =>
      if leadsWith pat (c :: rest) then
        some ([], List.drop pat.length (c :: rest))
      else
        match splitFirst pat rest with
        | some (pre, post) => some (c :: pre, post)
        | none => none

/-- Leftmost, non-overlapping replacement of `pat` by `repl`, with an
explicit fuel argument for structural termination; fuel `l.length` suffices
when `pat` is nonempty because every step consumes at least one character. -/
def replaceAux (pat repl : List Char) : Nat → List Char → List Char
  | _, [] => []
  | 0, l => l
  | n + 1, c :: rest =>
      if leadsWith pat (c :: rest) then
        repl ++ replaceAux pat repl n (List.drop pat.length (c :: rest))
      else
        c :: replaceAux pat repl n rest

/-- Python `str.replace(pat, repl)` for a nonempty pattern. -/
def pyReplace (s pat repl : String) : String :=
  if pat.data = [] then s
  else ⟨replaceAux pat.data repl.data s.data.length s.data⟩

/-- The literal fallback/apology text used at `app.py` lines 130 and 158:
`Sorry, I didn't understand that. Please try again.` -/
def apology_text : String := "Sorry, I didn\x27t understand that. Please try again."

/-- The goodbye message literal configured at `app.py` line 48:
`Goodbye! I'll be here if you need me.` -/
def goodbye_literal : String := "Goodbye! I\x27ll be here if you need me."

/-- A minimal model of the parts of the filesystem that the module-level
initialisation reads: which paths exist and what they contain. -/
structure FileSystem where
  pathExists : String → Bool
  read : String → String

/-- Module-level `start_template` computation (`app.py` lines 38-41):
`start_template = os.environ.get("CHAT_START_TEMPLATE")`; if that value is
truthy (a non-empty string) and names an existing file, it is replaced by the
file's contents; otherwise it is left as-is (`none` when the variable is
unset, or the raw string value itself). -/
def start_template (envVal : Option String) (fs : FileSystem) : Option String :=
  match envVal with
  | none => none
  | some v => if v ≠ "" && fs.pathExists v then some (fs.read v) else some v

/-- Python `str.format` restricted to the named fields `user` and `today`,
as used on the start template at `app.py` lines 96-98: every occurrence of
the placeholder `\x7buser\x7d` is replaced by the user name and every
occurrence of `\x7btoday\x7d` by the date string.  (Templates containing
other placeholders, which CPython would reject with a `KeyError`, are not
exercised by any claim.) -/
def pyFormat2 (template user today : String) : String :=
  pyReplace (pyReplace template "\x7buser\x7d" user) "\x7btoday\x7d" today

/-- Python `str.format` restricted to the named field `user`, as used on the
goodbye message at `app.py` line 163. -/
def pyFormatUser (template user : String) : String :=
  pyReplace template "\x7buser\x7d" user

/-- The expression `chat_options.get("start_system_message").format(user=...,
today=...)` at `app.py` lines 96-98.  When the stored template is `None`
(the `CHAT_START_TEMPLATE` variable was unset), the attribute access
`.format` on `None` raises an `AttributeError`; otherwise the template is
formatted. -/
def format_start_message (tmpl : Option String) (user today : String) :
    Except String String :=
  match tmpl with
  | none => Except.error "AttributeError: NoneType object has no attribute format"
  | some t => Except.ok (pyFormat2 t user today)

/-- `check_message_empty` (`app.py` lines 169-176): the message is `None`, or
its stripped text is empty.  The `chat` argument is kept because the source
function takes it (and ignores it). -/
def check_message_empty (msg : Option String) (_chat : ChatSession) : Bool :=
  match msg with
  | none => true
  | some s => pyStrip s == ""

/-- Modelled from the spec: `check_conversation_end` is imported from
`app.handlers`, which is not under `src/`.  The spec describes it as testing
whether the normalized content "matches an end-of-conversation signal"; we
model the signal as the stripped, lower-cased content being a goodbye word. -/
def check_conversation_end (msg : Option String) (_chat : ChatSession) : Bool :=
  match msg with
  | none => false
  | some s => pyLower (pyStrip s) == "bye" || pyLower (pyStrip s) == "goodbye"

/-- `message_empty_or_goodbye` (`app.py` lines 153-167), with the external
end-of-conversation predicate abstracted as the parameter `endCheck` (the
source calls the imported `check_conversation_end` there).  The source
function sends a text via `chat_client.send_message` and returns `True` when
it short-circuits; the embedding returns `some sentText` in that case (the
caller records the send) and `none` when the request should continue. -/
def message_empty_or_goodbye (endCheck : Option String → ChatSession → Bool)
    (msg : Option String) (chat : ChatSession) : Option String :=
  if check_message_empty msg chat then
    some apology_text
  else if endCheck msg chat then
    some (pyFormatUser chat.goodbye_message chat.sender.name)
  else
    none

/-- Modelled from the spec: `verify_image_generation` is imported from
`app.handlers`, which is not under `src/`.  Per the spec, the reply text is
scanned for an embedded directive of the form `[img:"<prompt>"]`; if found,
the directive is stripped from the user-visible reply and the enclosed
prompt is extracted; otherwise the reply is returned unchanged with no
prompt. -/
def verify_image_generation (reply : String) : String × Option String :=
  match splitFirst ("[img:\"").data reply.data with
  | none => (reply, none)
  | some (before, rest) =>
    match splitFirst ("\"]").data rest with
    | none => (reply, none)
    | some (prompt, after) => (pyStrip ⟨before ++ after⟩, some ⟨prompt⟩)

/-- The image-request marker string appended to the history at `app.py`
line 138: the f-string `[img:"<prompt>"]`. -/
def img_marker (prompt : String) : String := "[img:\"" ++ prompt ++ "\"]"

/-- Modelled from the spec: `OpenAIChatManager.add_message` lives in
`app.whatsapp.chat`, which is not under `src/`.  Per the spec it "appends a
new Message to `session.messages`". -/
def add_message (chat : ChatSession) (content : String) (role : Role) : ChatSession :=
  { chat with messages := chat.messages ++ [⟨role, content⟩] }

/-- Modelled from the spec: `OpenAIChatManager.get_or_create` lives in
`app.whatsapp.chat`, which is not under `src/`.  Per the spec it returns the
stored session for the sender's phone number when one exists, and otherwise
a fresh session seeded with the defaults whose message list is exactly one
`system` entry built from the (not-yet-formatted) start template. -/
def get_or_create (store : List (String × ChatSession)) (sender : Sender)
    (opts : ChatOptions) : ChatSession :=
  match store.lookup sender.phone_number with
  | some s => s
  | none =>
      { sender := sender
        messages := [⟨Role.system, opts.start_system_message.getD ""⟩]
        start_system_message := opts.start_system_message
        goodbye_message := opts.goodbye_message }

/-- The observable effects performed by the handler, in program order.
`sent` is an outbound `chat_client.send_message`; `langDetected` is the
`ensure_user_language` call; `completionCalled` is the `chatgpt_completion`
call with the message list it received; `userAppended` / `assistantAppended`
/ `markerAppended` record the three `add_message` calls; `imageGenerated`
is the `check_and_send_image_generation` call. -/
inductive Event where
  | sent (text : String) (dest : String)
  | langDetected (text : String)
  | completionCalled (msgs : List Message)
  | userAppended (text : String)
  | assistantAppended (text : String)
  | markerAppended (prompt : String)
  | imageGenerated (prompt : String)
deriving DecidableEq, Repr

/-- The HTTP-level outcome of one request: either the handler returned the
JSON body with status `ok` (Flask responds with a 200-level status), or an
exception escaped the handler (Flask responds with a 500 error). -/
inductive HttpResult where
  | ok
  | exception (msg : String)
deriving DecidableEq, Repr

/-- The environment of one request: the results of the external calls the
handler makes.  `normalized_msg` is the value of `msg` after
`chat_client.parse_request_values` and `verify_and_process_media`
(both live outside `src/`; the spec says a missing body yields empty-string
content and media failures fall back to empty text, so the normalized
content is exactly an optional string).  `completion` gives, for a message
list, either the completion text or the exception raised by
`chatgpt_completion`.  `delivery_ok` says whether the provider-side send
succeeds; per the spec, `send_message` substitutes the `on_failure` text on
failure when one is provided and raises `DeliveryError` otherwise. -/
structure HandlerEnv where
  today : String
  normalized_msg : Option String
  completion : List Message → Except String String
  delivery_ok : Bool

/-- The result of one request: the HTTP result, the session state when the
handler finished (or when the exception escaped), the ordered effects, and
whether `chat.save()` ran. -/
structure HandlerOutcome where
  result : HttpResult
  chat : ChatSession
  events : List Event
  saved : Bool
deriving Repr

/-- The session after step 3 of the handler (`app.py` lines 96-99):
`chat.start_system_message` is set to the formatted template and
`messages[0]` is overwritten in place with the fresh system message. -/
def refreshed_chat (sysText : String) (chat0 : ChatSession) : ChatSession :=
  { chat0 with
    start_system_message := some sysText
    messages := chat0.messages.set 0 ⟨Role.system, sysText⟩ }

/-- The webhook handler `reply_to_whatsapp_message` (`app.py` lines 79-148),
embedded step by step in source order, with the external
end-of-conversation predicate abstracted as `endCheck`:

1. the system prompt is rebuilt from the module-level
   `chat_options["start_system_message"]` formatted with the sender name and
   the current date (an unset template makes `.format` raise), and written
   over `messages[0]` (a write into an empty list would raise `IndexError`);
2. `message_empty_or_goodbye` may short-circuit, sending a canned text
   (that send has no `on_failure` fallback, so a delivery failure raises);
3. if the history still has exactly one message, `ensure_user_language` runs;
4. the user turn is appended and `chatgpt_completion(...).strip()` runs
   (its exception propagates);
5. `verify_image_generation` splits the reply from an image prompt;
6. the visible reply is sent (with `on_failure` set to the apology text, so
   a delivery failure is substituted, not raised) and appended as the
   assistant turn;
7. when an image prompt was extracted, the marker is appended as a `system`
   entry and image generation is invoked;
8. the session is saved and the ok body returned. -/
def reply_to_whatsapp_message (endCheck : Option String → ChatSession → Bool)
    (opts : ChatOptions) (env : HandlerEnv) (sender : Sender)
    (chat0 : ChatSession) : HandlerOutcome :=
  match format_start_message opts.start_system_message sender.name env.today with
  | Except.error e => ⟨HttpResult.exception e, chat0, [], false⟩
  | Except.ok sysText =>
    if chat0.messages.isEmpty then
      ⟨HttpResult.exception "IndexError: list assignment index out of range",
        chat0, [], false⟩
    else
      let chat1 : ChatSession := refreshed_chat sysText chat0
      match message_empty_or_goodbye endCheck env.normalized_msg chat1 with
      | some sendText =>
          if env.delivery_ok then
            ⟨HttpResult.ok, chat1, [Event.sent sendText chat1.sender.phone_number], false⟩
          else
            ⟨HttpResult.exception "DeliveryError", chat1, [], false⟩
      | none =>
        -- Here the normalized message is necessarily non-empty (the empty
        -- check would have short-circuited on `none`); the default is inert.
        let m := env.normalized_msg.getD ""
        let langEvents : List Event :=
          if chat1.messages.length = 1 then [Event.langDetected m] else []
        let chat2 := add_message chat1 m Role.user
        match env.completion chat2.messages with
        | Except.error e =>
            ⟨HttpResult.exception e, chat2,
              langEvents ++ [Event.userAppended m, Event.completionCalled chat2.messages],
              false⟩
        | Except.ok raw =>
          let stripped := pyStrip raw
          let pr := verify_image_generation stripped
          let vis := pr.1
          let sentText := if env.delivery_ok then vis else apology_text
          let chat3 := add_message chat2 vis Role.assistant
          let baseEvents : List Event :=
            langEvents ++
              [Event.userAppended m, Event.completionCalled chat2.messages,
               Event.sent sentText chat1.sender.phone_number,
               Event.assistantAppended vis]
          match pr.2 with
          | some p =>
              let chat4 := add_message chat3 (img_marker p) Role.system
              ⟨HttpResult.ok, chat4,
                baseEvents ++ [Event.markerAppended p, Event.imageGenerated p], true⟩
          | none => ⟨HttpResult.ok, chat3, baseEvents, true⟩

/-- A choice returned by the chat completions API: the `.message.content`
field of `response.choices[i]`. -/
structure ChatChoice where
  content : String
deriving DecidableEq, Repr

/-- `chat_completion` (`completions.py` lines 63-103): when the module-level
`client` is `None` (construction failed at import time), a `RuntimeError` is
raised; otherwise the API is called and `response.choices[0].message.content`
is returned — indexing into an empty `choices` list would raise.  The
returned content is NOT stripped here; `app.py` applies `.strip()` at the
call site. -/
def chat_completion (client : Option (List Message → List ChatChoice))
    (messages : List Message) : Except String String :=
  match client with
  | none => Except.error "RuntimeError: OpenAI client is not available"
  | some create =>
      match (create messages).head? with
      | none => Except.error "IndexError: list index out of range"
      | some choice => Except.ok choice.content

/-! ### Helper lemmas -/

theorem head?_set_zero {α : Type} (l : List α) (a : α) (h : l ≠ []) :
    (l.set 0 a).head? = some a := by
  cases l with
  | nil => exact absurd rfl h
  | cons b t => rfl

theorem set_zero_ne_nil {α : Type} (l : List α) (a : α) (h : l ≠ []) :
    l.set 0 a ≠ [] := by
  cases l with
  | nil => exact absurd rfl h
  | cons b t => simp

theorem head?_append_singleton {α : Type} (l : List α) (x : α) (h : l ≠ []) :
    (l ++ [x]).head? = l.head? := by
  cases l with
  | nil => exact absurd rfl h
  | cons b t => rfl

theorem isEmpty_false_of_ne_nil {α : Type} (l : List α) (h : l ≠ []) :
    l.isEmpty = false := by
  cases l with
  | nil => exact absurd rfl h
  | cons b t => rfl

/-- The refresh step changes neither the sender, the goodbye message, nor
the length of the message list. -/
theorem refreshed_chat_fields (sysText : String) (chat0 : ChatSession) :
    (refreshed_chat sysText chat0).sender = chat0.sender ∧
    (refreshed_chat sysText chat0).goodbye_message = chat0.goodbye_message ∧
    (refreshed_chat sysText chat0).messages.length = chat0.messages.length := by
  refine ⟨rfl, rfl, ?_⟩
  simp [refreshed_chat]

/-- The end-of-conversation signal never matches an empty or
whitespace-only message: a matching message strips to a goodbye word, which
is nonempty. -/
theorem conversation_end_not_empty (msg : Option String) (c : ChatSession)
    (h : check_conversation_end msg c = true) :
    check_message_empty msg c = false := by
  cases msg with
  | none => simp [check_conversation_end] at h
  | some s =>
    simp only [check_conversation_end, check_message_empty] at h ⊢
    rcases Bool.or_eq_true_iff.mp h with h1 | h1
    · by_contra hc
      simp only [Bool.not_eq_false, beq_iff_eq] at hc
      rw [hc] at h1
      simp [pyLower] at h1
    · by_contra hc
      simp only [Bool.not_eq_false, beq_iff_eq] at hc
      rw [hc] at h1
      simp [pyLower] at h1

/-- If `verify_image_generation` extracts no prompt, the visible reply is
the input unchanged. -/
theorem verify_image_generation_of_none (r : String)
    (h : (verify_image_generation r).2 = none) :
    (verify_image_generation r).1 = r := by
  unfold verify_image_generation at h ⊢
  cases h1 : splitFirst ("[img:\"").data r.data with
  | none => simp [h1]
  | some p =>
    cases p with
    | mk before rest =>
      cases h2 : splitFirst ("\"]").data rest with
      | none => simp [h1, h2]
      | some q => simp [h1, h2] at h

/-! ### Handler outcome characterisations

One equation lemma per control-flow path of `reply_to_whatsapp_message`,
used by the claim theorems below. -/

theorem handler_format_none (endCheck : Option String → ChatSession → Bool)
    (opts : ChatOptions) (env : HandlerEnv) (sender : Sender)
    (chat0 : ChatSession) (hopt : opts.start_system_message = none) :
    reply_to_whatsapp_message endCheck opts env sender chat0 =
      ⟨HttpResult.exception "AttributeError: NoneType object has no attribute format",
        chat0, [], false⟩ := by
  simp [reply_to_whatsapp_message, format_start_message, hopt]

theorem handler_empty_history (endCheck : Option String → ChatSession → Bool)
    (opts : ChatOptions) (env : HandlerEnv) (sender : Sender)
    (chat0 : ChatSession) (t : String)
    (hopt : opts.start_system_message = some t)
    (hnil : chat0.messages = []) :
    reply_to_whatsapp_message endCheck opts env sender chat0 =
      ⟨HttpResult.exception "IndexError: list assignment index out of range",
        chat0, [], false⟩ := by
  simp [reply_to_whatsapp_message, format_start_message, hopt, hnil]

theorem handler_shortcircuit (endCheck : Option String → ChatSession → Bool)
    (opts : ChatOptions) (env : HandlerEnv) (sender : Sender)
    (chat0 : ChatSession) (t s : String)
    (hopt : opts.start_system_message = some t)
    (hne : chat0.messages ≠ [])
    (hsc : message_empty_or_goodbye endCheck env.normalized_msg
        (refreshed_chat (pyFormat2 t sender.name env.today) chat0) = some s)
    (hdel : env.delivery_ok = true) :
    reply_to_whatsapp_message endCheck opts env sender chat0 =
      ⟨HttpResult.ok, refreshed_chat (pyFormat2 t sender.name env.today) chat0,
        [Event.sent s chat0.sender.phone_number], false⟩ := by
  have hie := isEmpty_false_of_ne_nil chat0.messages hne
  simp only [reply_to_whatsapp_message, format_start_message, hopt, hie, hsc, hdel,
    Bool.false_eq_true, if_false]
  rfl

theorem handler_shortcircuit_delivery_fail
    (endCheck : Option String → ChatSession → Bool)
    (opts : ChatOptions) (env : HandlerEnv) (sender : Sender)
    (chat0 : ChatSession) (t s : String)
    (hopt : opts.start_system_message = some t)
    (hne : chat0.messages ≠ [])
    (hsc : message_empty_or_goodbye endCheck env.normalized_msg
        (refreshed_chat (pyFormat2 t sender.name env.today) chat0) = some s)
    (hdel : env.delivery_ok = false) :
    reply_to_whatsapp_message endCheck opts env sender chat0 =
      ⟨HttpResult.exception "DeliveryError",
        refreshed_chat (pyFormat2 t sender.name env.today) chat0, [], false⟩ := by
  have hie := isEmpty_false_of_ne_nil chat0.messages hne
  simp [reply_to_whatsapp_message, format_start_message, hopt, hie, hsc, hdel]

theorem handler_completion_error (endCheck : Option String → ChatSession → Bool)
    (opts : ChatOptions) (env : HandlerEnv) (sender : Sender)
    (chat0 : ChatSession) (t e : String)
    (hopt : opts.start_system_message = some t)
    (hne : chat0.messages ≠ [])
    (hsc : message_empty_or_goodbye endCheck env.normalized_msg
        (refreshed_chat (pyFormat2 t sender.name env.today) chat0) = none)
    (hcomp : env.completion
        (add_message (refreshed_chat (pyFormat2 t sender.name env.today) chat0)
          (env.normalized_msg.getD "") Role.user).messages = Except.error e) :
    reply_to_whatsapp_message endCheck opts env sender chat0 =
      ⟨HttpResult.exception e,
        add_message (refreshed_chat (pyFormat2 t sender.name env.today) chat0)
          (env.normalized_msg.getD "") Role.user,
        (if (refreshed_chat (pyFormat2 t sender.name env.today) chat0).messages.length = 1
          then [Event.langDetected (env.normalized_msg.getD "")] else []) ++
          [Event.userAppended (env.normalized_msg.getD ""),
           Event.completionCalled
             (add_message (refreshed_chat (pyFormat2 t sender.name env.today) chat0)
               (env.normalized_msg.getD "") Role.user).messages],
        false⟩ := by
  have hie := isEmpty_false_of_ne_nil chat0.messages hne
  simp only [reply_to_whatsapp_message, format_start_message, hopt, hie,
    Bool.false_eq_true, if_false, hsc, hcomp]

theorem handler_main_ok_noimg (endCheck : Option String → ChatSession → Bool)
    (opts : ChatOptions) (env : HandlerEnv) (sender : Sender)
    (chat0 : ChatSession) (t raw : String)
    (hopt : opts.start_system_message = some t)
    (hne : chat0.messages ≠ [])
    (hsc : message_empty_or_goodbye endCheck env.normalized_msg
        (refreshed_chat (pyFormat2 t sender.name env.today) chat0) = none)
    (hcomp : env.completion
        (add_message (refreshed_chat (pyFormat2 t sender.name env.today) chat0)
          (env.normalized_msg.getD "") Role.user).messages = Except.ok raw)
    (himg : (verify_image_generation (pyStrip raw)).2 = none) :
    reply_to_whatsapp_message endCheck opts env sender chat0 =
      ⟨HttpResult.ok,
        add_message
          (add_message (refreshed_chat (pyFormat2 t sender.name env.today) chat0)
            (env.normalized_msg.getD "") Role.user)
          ((verify_image_generation (pyStrip raw)).1) Role.assistant,
        (if (refreshed_chat (pyFormat2 t sender.name env.today) chat0).messages.length = 1
          then [Event.langDetected (env.normalized_msg.getD "")] else []) ++
          [Event.userAppended (env.normalized_msg.getD ""),
           Event.completionCalled
             (add_message (refreshed_chat (pyFormat2 t sender.name env.today) chat0)
               (env.normalized_msg.getD "") Role.user).messages,
           Event.sent
             (if env.delivery_ok then (verify_image_generation (pyStrip raw)).1
              else apology_text)
             chat0.sender.phone_number,
           Event.assistantAppended ((verify_image_generation (pyStrip raw)).1)],
        true⟩ := by
  have hie := isEmpty_false_of_ne_nil chat0.messages hne
  simp only [reply_to_whatsapp_message, format_start_message, hopt, hie,
    Bool.false_eq_true, if_false, hsc, hcomp, himg]
  rfl

theorem handler_main_ok_img (endCheck : Option String → ChatSession → Bool)
    (opts : ChatOptions) (env : HandlerEnv) (sender : Sender)
    (chat0 : ChatSession) (t raw p : String)
    (hopt : opts.start_system_message = some t)
    (hne : chat0.messages ≠ [])
    (hsc : message_empty_or_goodbye endCheck env.normalized_msg
        (refreshed_chat (pyFormat2 t sender.name env.today) chat0) = none)
    (hcomp : env.completion
        (add_message (refreshed_chat (pyFormat2 t sender.name env.today) chat0)
          (env.normalized_msg.getD "") Role.user).messages = Except.ok raw)
    (himg : (verify_image_generation (pyStrip raw)).2 = some p) :
    reply_to_whatsapp_message endCheck opts env sender chat0 =
      ⟨HttpResult.ok,
        add_message
          (add_message
            (add_message (refreshed_chat (pyFormat2 t sender.name env.today) chat0)
              (env.normalized_msg.getD "") Role.user)
            ((verify_image_generation (pyStrip raw)).1) Role.assistant)
          (img_marker p) Role.system,
        ((if (refreshed_chat (pyFormat2 t sender.name env.today) chat0).messages.length = 1
          then [Event.langDetected (env.normalized_msg.getD "")] else []) ++
          [Event.userAppended (env.normalized_msg.getD ""),
           Event.completionCalled
             (add_message (refreshed_chat (pyFormat2 t sender.name env.today) chat0)
               (env.normalized_msg.getD "") Role.user).messages,
           Event.sent
             (if env.delivery_ok then (verify_image_generation (pyStrip raw)).1
              else apology_text)
             chat0.sender.phone_number,
           Event.assistantAppended ((verify_image_generation (pyStrip raw)).1)]) ++
          [Event.markerAppended p, Event.imageGenerated p],
        true⟩ := by
  have hie := isEmpty_false_of_ne_nil chat0.messages hne
  simp only [reply_to_whatsapp_message, format_start_message, hopt, hie,
    Bool.false_eq_true, if_false, hsc, hcomp, himg]
  rfl

/-- Appending a turn preserves the head of a nonempty history. -/
theorem add_message_head? (c : ChatSession) (x : String) (r : Role)
    (h : c.messages ≠ []) :
    (add_message c x r).messages.head? = c.messages.head? :=
  head?_append_singleton _ _ h

theorem add_message_ne_nil (c : ChatSession) (x : String) (r : Role) :
    (add_message c x r).messages ≠ [] := by
  simp [add_message]

theorem refreshed_chat_head? (s : String) (chat0 : ChatSession)
    (h : chat0.messages ≠ []) :
    (refreshed_chat s chat0).messages.head? = some ⟨Role.system, s⟩ :=
  head?_set_zero _ _ h

theorem refreshed_chat_ne_nil (s : String) (chat0 : ChatSession)
    (h : chat0.messages ≠ []) :
    (refreshed_chat s chat0).messages ≠ [] :=
  set_zero_ne_nil _ _ h

theorem refreshed_chat_length (s : String) (chat0 : ChatSession) :
    (refreshed_chat s chat0).messages.length = chat0.messages.length := by
  simp [refreshed_chat]

/-! ### Claims -/

/-- C2: for every session with a nonempty history and every completed
request cycle (the handler returned the ok acknowledgment), slot 0 of the
session's message list afterwards holds a `system`-role entry, namely the
start template formatted with the sender's name and the current date: the
system prompt is rewritten in place on each request and never appended a
second time, so the `messages[0].role == system` invariant is preserved. -/
theorem C2_system_prompt_slot (endCheck : Option String → ChatSession → Bool)
    (opts : ChatOptions) (env : HandlerEnv) (sender : Sender)
    (chat0 : ChatSession) (hne : chat0.messages ≠ [])
    (hok : (reply_to_whatsapp_message endCheck opts env sender chat0).result =
      HttpResult.ok) :
    ∃ t, opts.start_system_message = some t ∧
      (reply_to_whatsapp_message endCheck opts env sender chat0).chat.messages.head? =
        some ⟨Role.system, pyFormat2 t sender.name env.today⟩ := by
  cases hopt : opts.start_system_message with
  | none =>
      rw [handler_format_none endCheck opts env sender chat0 hopt] at hok
      exact absurd hok (by simp)
  | some t =>
      refine ⟨t, rfl, ?_⟩
      cases hsc : message_empty_or_goodbye endCheck env.normalized_msg
          (refreshed_chat (pyFormat2 t sender.name env.today) chat0) with
      | some s =>
          cases hdel : env.delivery_ok with
          | false =>
              rw [handler_shortcircuit_delivery_fail endCheck opts env sender chat0
                t s hopt hne hsc hdel] at hok
              exact absurd hok (by simp)
          | true =>
              rw [handler_shortcircuit endCheck opts env sender chat0 t s hopt hne
                hsc hdel]
              exact refreshed_chat_head? _ _ hne
      | none =>
          cases hcomp : env.completion
              (add_message (refreshed_chat (pyFormat2 t sender.name env.today) chat0)
                (env.normalized_msg.getD "") Role.user).messages with
          | error e =>
              rw [handler_completion_error endCheck opts env sender chat0 t e hopt
                hne hsc hcomp] at hok
              exact absurd hok (by simp)
          | ok raw =>
              cases himg : (verify_image_generation (pyStrip raw)).2 with
              | none =>
                  rw [handler_main_ok_noimg endCheck opts env sender chat0 t raw
                    hopt hne hsc hcomp himg]
                  dsimp only
                  rw [add_message_head? _ _ _ (add_message_ne_nil _ _ _),
                    add_message_head? _ _ _ (refreshed_chat_ne_nil _ _ hne),
                    refreshed_chat_head? _ _ hne]
              | some p =>
                  rw [handler_main_ok_img endCheck opts env sender chat0 t raw p
                    hopt hne hsc hcomp himg]
                  dsimp only
                  rw [add_message_head? _ _ _ (add_message_ne_nil _ _ _),
                    add_message_head? _ _ _ (add_message_ne_nil _ _ _),
                    add_message_head? _ _ _ (refreshed_chat_ne_nil _ _ hne),
                    refreshed_chat_head? _ _ hne]

/-- C2 witness: a concrete completed request (first contact, reply
delivered) whose final history has the freshly formatted system prompt in
slot 0. -/
theorem C2_witness :
    (⟨⟨"+1234567890", "Test User"⟩, [⟨Role.system, "seed"⟩], none,
        goodbye_literal⟩ : ChatSession).messages ≠ [] ∧
    (reply_to_whatsapp_message check_conversation_end
        ⟨"gpt-3.5-turbo", none, some "Hi \x7buser\x7d, today is \x7btoday\x7d.",
          goodbye_literal, true, true⟩
        ⟨"2026-10-12", some "Hello", fun _ => Except.ok "Hey there!", true⟩
        ⟨"+1234567890", "Test User"⟩
        ⟨⟨"+1234567890", "Test User"⟩, [⟨Role.system, "seed"⟩], none,
          goodbye_literal⟩).result = HttpResult.ok ∧
    ∃ t, (⟨"gpt-3.5-turbo", none, some "Hi \x7buser\x7d, today is \x7btoday\x7d.",
        goodbye_literal, true, true⟩ : ChatOptions).start_system_message = some t ∧
      (reply_to_whatsapp_message check_conversation_end
        ⟨"gpt-3.5-turbo", none, some "Hi \x7buser\x7d, today is \x7btoday\x7d.",
          goodbye_literal, true, true⟩
        ⟨"2026-10-12", some "Hello", fun _ => Except.ok "Hey there!", true⟩
        ⟨"+1234567890", "Test User"⟩
        ⟨⟨"+1234567890", "Test User"⟩, [⟨Role.system, "seed"⟩], none,
          goodbye_literal⟩).chat.messages.head? =
        some ⟨Role.system, pyFormat2 t "Test User" "2026-10-12"⟩ := by
  refine ⟨by decide, by decide, ?_⟩
  exact C2_system_prompt_slot check_conversation_end
    ⟨"gpt-3.5-turbo", none, some "Hi \x7buser\x7d, today is \x7btoday\x7d.",
      goodbye_literal, true, true⟩
    ⟨"2026-10-12", some "Hello", fun _ => Except.ok "Hey there!", true⟩
    ⟨"+1234567890", "Test User"⟩
    ⟨⟨"+1234567890", "Test User"⟩, [⟨Role.system, "seed"⟩], none, goodbye_literal⟩
    (by decide) (by decide)

/-- C3: when the normalized message content is absent, empty or
whitespace-only, the request short-circuits: the fixed apology text is the
only outbound send, the session's message list keeps its length (no user or
assistant turn is appended), and the request still completes with the ok
acknowledgment. -/
theorem C3_empty_message_shortcircuit (endCheck : Option String → ChatSession → Bool)
    (opts : ChatOptions) (env : HandlerEnv) (sender : Sender)
    (chat0 : ChatSession) (t : String)
    (hopt : opts.start_system_message = some t)
    (hne : chat0.messages ≠ [])
    (hdel : env.delivery_ok = true)
    (hempty : check_message_empty env.normalized_msg chat0 = true) :
    (reply_to_whatsapp_message endCheck opts env sender chat0).events =
      [Event.sent apology_text chat0.sender.phone_number] ∧
    (reply_to_whatsapp_message endCheck opts env sender chat0).chat.messages.length =
      chat0.messages.length ∧
    (reply_to_whatsapp_message endCheck opts env sender chat0).result =
      HttpResult.ok := by
  have hsc : message_empty_or_goodbye endCheck env.normalized_msg
      (refreshed_chat (pyFormat2 t sender.name env.today) chat0) = some apology_text := by
    have he : check_message_empty env.normalized_msg
        (refreshed_chat (pyFormat2 t sender.name env.today) chat0) = true := hempty
    simp [message_empty_or_goodbye, he]
  rw [handler_shortcircuit endCheck opts env sender chat0 t apology_text hopt hne
    hsc hdel]
  exact ⟨rfl, refreshed_chat_length _ _, rfl⟩

/-- C3 witness: a whitespace-only body on a two-message session. -/
theorem C3_witness :
    (⟨"gpt-3.5-turbo", none, some "T", goodbye_literal, true, true⟩ :
        ChatOptions).start_system_message = some "T" ∧
    (⟨⟨"+1234567890", "Test User"⟩, [⟨Role.system, "seed"⟩, ⟨Role.user, "old"⟩],
        none, goodbye_literal⟩ : ChatSession).messages ≠ [] ∧
    check_message_empty (some "   ")
      ⟨⟨"+1234567890", "Test User"⟩, [⟨Role.system, "seed"⟩, ⟨Role.user, "old"⟩],
        none, goodbye_literal⟩ = true ∧
    ((reply_to_whatsapp_message check_conversation_end
        ⟨"gpt-3.5-turbo", none, some "T", goodbye_literal, true, true⟩
        ⟨"2026-10-12", some "   ", fun _ => Except.ok "unused", true⟩
        ⟨"+1234567890", "Test User"⟩
        ⟨⟨"+1234567890", "Test User"⟩, [⟨Role.system, "seed"⟩, ⟨Role.user, "old"⟩],
          none, goodbye_literal⟩).events =
      [Event.sent apology_text "+1234567890"] ∧
    (reply_to_whatsapp_message check_conversation_end
        ⟨"gpt-3.5-turbo", none, some "T", goodbye_literal, true, true⟩
        ⟨"2026-10-12", some "   ", fun _ => Except.ok "unused", true⟩
        ⟨"+1234567890", "Test User"⟩
        ⟨⟨"+1234567890", "Test User"⟩, [⟨Role.system, "seed"⟩, ⟨Role.user, "old"⟩],
          none, goodbye_literal⟩).chat.messages.length = 2 ∧
    (reply_to_whatsapp_message check_conversation_end
        ⟨"gpt-3.5-turbo", none, some "T", goodbye_literal, true, true⟩
        ⟨"2026-10-12", some "   ", fun _ => Except.ok "unused", true⟩
        ⟨"+1234567890", "Test User"⟩
        ⟨⟨"+1234567890", "Test User"⟩, [⟨Role.system, "seed"⟩, ⟨Role.user, "old"⟩],
          none, goodbye_literal⟩).result = HttpResult.ok) := by
  refine ⟨by decide, by decide, by decide, ?_⟩
  exact C3_empty_message_shortcircuit check_conversation_end
    ⟨"gpt-3.5-turbo", none, some "T", goodbye_literal, true, true⟩
    ⟨"2026-10-12", some "   ", fun _ => Except.ok "unused", true⟩
    ⟨"+1234567890", "Test User"⟩
    ⟨⟨"+1234567890", "Test User"⟩, [⟨Role.system, "seed"⟩, ⟨Role.user, "old"⟩],
      none, goodbye_literal⟩
    "T" (by decide) (by decide) (by decide) (by decide)

/-- C4: when the normalized content matches the end-of-conversation signal,
the goodbye message formatted with the sender's name is the only outbound
send, the request terminates with the ok acknowledgment, and the session's
message list keeps its length. -/
theorem C4_goodbye_shortcircuit (opts : ChatOptions) (env : HandlerEnv)
    (sender : Sender) (chat0 : ChatSession) (t : String)
    (hopt : opts.start_system_message = some t)
    (hne : chat0.messages ≠ [])
    (hdel : env.delivery_ok = true)
    (hg : check_conversation_end env.normalized_msg chat0 = true) :
    (reply_to_whatsapp_message check_conversation_end opts env sender chat0).events =
      [Event.sent (pyFormatUser chat0.goodbye_message chat0.sender.name)
        chat0.sender.phone_number] ∧
    (reply_to_whatsapp_message check_conversation_end opts env sender
      chat0).chat.messages.length = chat0.messages.length ∧
    (reply_to_whatsapp_message check_conversation_end opts env sender chat0).result =
      HttpResult.ok := by
  have hg1 : check_conversation_end env.normalized_msg
      (refreshed_chat (pyFormat2 t sender.name env.today) chat0) = true := hg
  have he1 : check_message_empty env.normalized_msg
      (refreshed_chat (pyFormat2 t sender.name env.today) chat0) = false :=
    conversation_end_not_empty _ _ hg1
  have hsc : message_empty_or_goodbye check_conversation_end env.normalized_msg
      (refreshed_chat (pyFormat2 t sender.name env.today) chat0) =
      some (pyFormatUser chat0.goodbye_message chat0.sender.name) := by
    simp [message_empty_or_goodbye, he1, hg1]
    rfl
  rw [handler_shortcircuit check_conversation_end opts env sender chat0 t
    (pyFormatUser chat0.goodbye_message chat0.sender.name) hopt hne hsc hdel]
  exact ⟨rfl, refreshed_chat_length _ _, rfl⟩

/-- C4 witness: the body ` Bye ` on a three-message session. -/
theorem C4_witness :
    (⟨"gpt-3.5-turbo", none, some "T", goodbye_literal, true, true⟩ :
        ChatOptions).start_system_message = some "T" ∧
    (⟨⟨"+1234567890", "Test User"⟩,
        [⟨Role.system, "seed"⟩, ⟨Role.user, "hi"⟩, ⟨Role.assistant, "hello"⟩],
        none, goodbye_literal⟩ : ChatSession).messages ≠ [] ∧
    check_conversation_end (some " Bye ")
      ⟨⟨"+1234567890", "Test User"⟩,
        [⟨Role.system, "seed"⟩, ⟨Role.user, "hi"⟩, ⟨Role.assistant, "hello"⟩],
        none, goodbye_literal⟩ = true ∧
    ((reply_to_whatsapp_message check_conversation_end
        ⟨"gpt-3.5-turbo", none, some "T", goodbye_literal, true, true⟩
        ⟨"2026-10-12", some " Bye ", fun _ => Except.ok "unused", true⟩
        ⟨"+1234567890", "Test User"⟩
        ⟨⟨"+1234567890", "Test User"⟩,
          [⟨Role.system, "seed"⟩, ⟨Role.user, "hi"⟩, ⟨Role.assistant, "hello"⟩],
          none, goodbye_literal⟩).events =
      [Event.sent (pyFormatUser goodbye_literal "Test User") "+1234567890"] ∧
    (reply_to_whatsapp_message check_conversation_end
        ⟨"gpt-3.5-turbo", none, some "T", goodbye_literal, true, true⟩
        ⟨"2026-10-12", some " Bye ", fun _ => Except.ok "unused", true⟩
        ⟨"+1234567890", "Test User"⟩
        ⟨⟨"+1234567890", "Test User"⟩,
          [⟨Role.system, "seed"⟩, ⟨Role.user, "hi"⟩, ⟨Role.assistant, "hello"⟩],
          none, goodbye_literal⟩).chat.messages.length = 3 ∧
    (reply_to_whatsapp_message check_conversation_end
        ⟨"gpt-3.5-turbo", none, some "T", goodbye_literal, true, true⟩
        ⟨"2026-10-12", some " Bye ", fun _ => Except.ok "unused", true⟩
        ⟨"+1234567890", "Test User"⟩
        ⟨⟨"+1234567890", "Test User"⟩,
          [⟨Role.system, "seed"⟩, ⟨Role.user, "hi"⟩, ⟨Role.assistant, "hello"⟩],
          none, goodbye_literal⟩).result = HttpResult.ok) := by
  refine ⟨by decide, by decide, by decide, ?_⟩
  exact C4_goodbye_shortcircuit
    ⟨"gpt-3.5-turbo", none, some "T", goodbye_literal, true, true⟩
    ⟨"2026-10-12", some " Bye ", fun _ => Except.ok "unused", true⟩
    ⟨"+1234567890", "Test User"⟩
    ⟨⟨"+1234567890", "Test User"⟩,
      [⟨Role.system, "seed"⟩, ⟨Role.user, "hi"⟩, ⟨Role.assistant, "hello"⟩],
      none, goodbye_literal⟩
    "T" (by decide) (by decide) (by decide) (by decide)

/-- C10: the empty-message check strictly precedes the goodbye check: when
the normalized content is absent or whitespace-only, the sender receives
the fixed apology — and never the goodbye message — even when the
end-of-conversation predicate would also match that content (it is
universally satisfied here). -/
theorem C10_empty_check_precedes_goodbye
    (endCheck : Option String → ChatSession → Bool)
    (opts : ChatOptions) (env : HandlerEnv) (sender : Sender)
    (chat0 : ChatSession) (t : String)
    (hopt : opts.start_system_message = some t)
    (hne : chat0.messages ≠ [])
    (hdel : env.delivery_ok = true)
    (hempty : check_message_empty env.normalized_msg chat0 = true)
    (_hgb : ∀ c, endCheck env.normalized_msg c = true) :
    message_empty_or_goodbye endCheck env.normalized_msg chat0 = some apology_text ∧
    (reply_to_whatsapp_message endCheck opts env sender chat0).events =
      [Event.sent apology_text chat0.sender.phone_number] := by
  constructor
  · simp [message_empty_or_goodbye, hempty]
  · have hsc : message_empty_or_goodbye endCheck env.normalized_msg
        (refreshed_chat (pyFormat2 t sender.name env.today) chat0) =
        some apology_text := by
      have he : check_message_empty env.normalized_msg
          (refreshed_chat (pyFormat2 t sender.name env.today) chat0) = true := hempty
      simp [message_empty_or_goodbye, he]
    rw [handler_shortcircuit endCheck opts env sender chat0 t apology_text hopt
      hne hsc hdel]

/-- C10 witness: an absent body with an end-of-conversation predicate that
matches everything; the apology is still the message sent. -/
theorem C10_witness :
    (⟨"gpt-3.5-turbo", none, some "T", goodbye_literal, true, true⟩ :
        ChatOptions).start_system_message = some "T" ∧
    (⟨⟨"+1234567890", "Test User"⟩, [⟨Role.system, "seed"⟩], none,
        goodbye_literal⟩ : ChatSession).messages ≠ [] ∧
    check_message_empty none
      ⟨⟨"+1234567890", "Test User"⟩, [⟨Role.system, "seed"⟩], none,
        goodbye_literal⟩ = true ∧
    (message_empty_or_goodbye (fun _ _ => true) none
      ⟨⟨"+1234567890", "Test User"⟩, [⟨Role.system, "seed"⟩], none,
        goodbye_literal⟩ = some apology_text ∧
    (reply_to_whatsapp_message (fun _ _ => true)
        ⟨"gpt-3.5-turbo", none, some "T", goodbye_literal, true, true⟩
        ⟨"2026-10-12", none, fun _ => Except.ok "unused", true⟩
        ⟨"+1234567890", "Test User"⟩
        ⟨⟨"+1234567890", "Test User"⟩, [⟨Role.system, "seed"⟩], none,
          goodbye_literal⟩).events =
      [Event.sent apology_text "+1234567890"]) := by
  refine ⟨by decide, by decide, by decide, ?_⟩
  exact C10_empty_check_precedes_goodbye (fun _ _ => true)
    ⟨"gpt-3.5-turbo", none, some "T", goodbye_literal, true, true⟩
    ⟨"2026-10-12", none, fun _ => Except.ok "unused", true⟩
    ⟨"+1234567890", "Test User"⟩
    ⟨⟨"+1234567890", "Test User"⟩, [⟨Role.system, "seed"⟩], none, goodbye_literal⟩
    "T" (by decide) (by decide) (by decide) (by decide) (fun _ => rfl)

/-- C9: for a request that reaches the bootstrap check (the template is
configured, the stored history is nonempty and the request does not
short-circuit), language detection runs if and only if the history holds
exactly one message — the system prompt — at the check, and when it runs it
strictly precedes both the appending of the user turn and the completion
call. -/
theorem C9_language_bootstrap (endCheck : Option String → ChatSession → Bool)
    (opts : ChatOptions) (env : HandlerEnv) (sender : Sender)
    (chat0 : ChatSession) (t : String)
    (hopt : opts.start_system_message = some t)
    (hne : chat0.messages ≠ [])
    (hsc : message_empty_or_goodbye endCheck env.normalized_msg
        (refreshed_chat (pyFormat2 t sender.name env.today) chat0) = none) :
    ((∃ s, Event.langDetected s ∈
        (reply_to_whatsapp_message endCheck opts env sender chat0).events) ↔
      chat0.messages.length = 1) ∧
    (chat0.messages.length = 1 →
      ∃ tail, (reply_to_whatsapp_message endCheck opts env sender chat0).events =
        Event.langDetected (env.normalized_msg.getD "") ::
        Event.userAppended (env.normalized_msg.getD "") ::
        Event.completionCalled
          (add_message (refreshed_chat (pyFormat2 t sender.name env.today) chat0)
            (env.normalized_msg.getD "") Role.user).messages :: tail) := by
  cases hcomp : env.completion
      (add_message (refreshed_chat (pyFormat2 t sender.name env.today) chat0)
        (env.normalized_msg.getD "") Role.user).messages with
  | error e =>
      rw [handler_completion_error endCheck opts env sender chat0 t e hopt hne
        hsc hcomp]
      dsimp only
      rw [refreshed_chat_length]
      by_cases hlen : chat0.messages.length = 1 <;> simp [hlen]
  | ok raw =>
      cases himg : (verify_image_generation (pyStrip raw)).2 with
      | none =>
          rw [handler_main_ok_noimg endCheck opts env sender chat0 t raw hopt hne
            hsc hcomp himg]
          dsimp only
          rw [refreshed_chat_length]
          by_cases hlen : chat0.messages.length = 1 <;> simp [hlen]
      | some p =>
          rw [handler_main_ok_img endCheck opts env sender chat0 t raw p hopt hne
            hsc hcomp himg]
          dsimp only
          rw [refreshed_chat_length]
          by_cases hlen : chat0.messages.length = 1 <;> simp [hlen]

/-- C9 witness: a first-turn request ("Hello" on a one-message session)
where the language-detection event leads the trace; the bootstrap condition
holds and the ordering is observed. -/
theorem C9_witness :
    (⟨"gpt-3.5-turbo", none, some "T", goodbye_literal, true, true⟩ :
        ChatOptions).start_system_message = some "T" ∧
    (⟨⟨"+1234567890", "Test User"⟩, [⟨Role.system, "seed"⟩], none,
        goodbye_literal⟩ : ChatSession).messages ≠ [] ∧
    message_empty_or_goodbye check_conversation_end (some "Hello")
      (refreshed_chat (pyFormat2 "T" "Test User" "2026-10-12")
        ⟨⟨"+1234567890", "Test User"⟩, [⟨Role.system, "seed"⟩], none,
          goodbye_literal⟩) = none ∧
    (((∃ s, Event.langDetected s ∈
        (reply_to_whatsapp_message check_conversation_end
          ⟨"gpt-3.5-turbo", none, some "T", goodbye_literal, true, true⟩
          ⟨"2026-10-12", some "Hello", fun _ => Except.ok "Hey there!", true⟩
          ⟨"+1234567890", "Test User"⟩
          ⟨⟨"+1234567890", "Test User"⟩, [⟨Role.system, "seed"⟩], none,
            goodbye_literal⟩).events) ↔
      (⟨⟨"+1234567890", "Test User"⟩, [⟨Role.system, "seed"⟩], none,
        goodbye_literal⟩ : ChatSession).messages.length = 1) ∧
    ((⟨⟨"+1234567890", "Test User"⟩, [⟨Role.system, "seed"⟩], none,
        goodbye_literal⟩ : ChatSession).messages.length = 1 →
      ∃ tail, (reply_to_whatsapp_message check_conversation_end
          ⟨"gpt-3.5-turbo", none, some "T", goodbye_literal, true, true⟩
          ⟨"2026-10-12", some "Hello", fun _ => Except.ok "Hey there!", true⟩
          ⟨"+1234567890", "Test User"⟩
          ⟨⟨"+1234567890", "Test User"⟩, [⟨Role.system, "seed"⟩], none,
            goodbye_literal⟩).events =
        Event.langDetected "Hello" ::
        Event.userAppended "Hello" ::
        Event.completionCalled
          (add_message (refreshed_chat (pyFormat2 "T" "Test User" "2026-10-12")
            ⟨⟨"+1234567890", "Test User"⟩, [⟨Role.system, "seed"⟩], none,
              goodbye_literal⟩) "Hello" Role.user).messages :: tail)) := by
  refine ⟨by decide, by decide, by decide, ?_⟩
  exact C9_language_bootstrap check_conversation_end
    ⟨"gpt-3.5-turbo", none, some "T", goodbye_literal, true, true⟩
    ⟨"2026-10-12", some "Hello", fun _ => Except.ok "Hey there!", true⟩
    ⟨"+1234567890", "Test User"⟩
    ⟨⟨"+1234567890", "Test User"⟩, [⟨Role.system, "seed"⟩], none, goodbye_literal⟩
    "T" (by decide) (by decide) (by decide)

/-- C1 is false on the code as stated: the handler has no exception
handling, so a failing completion call propagates out of it and the
framework answers with an HTTP error, not the ok body.  Concrete input: a
plain "Hello" message whose completion call raises. -/
theorem C1_counterexample :
    (reply_to_whatsapp_message check_conversation_end
      ⟨"gpt-3.5-turbo", none, some "T", goodbye_literal, true, true⟩
      ⟨"2026-10-12", some "Hello", fun _ => Except.error "CompletionError", true⟩
      ⟨"+1234567890", "Test User"⟩
      ⟨⟨"+1234567890", "Test User"⟩, [⟨Role.system, "seed"⟩], none,
        goodbye_literal⟩).result ≠ HttpResult.ok := by decide

/-- C1 (amended): the handler returns the `ok` acknowledgment whenever no
internal step raises — the start template is configured, the stored history
is nonempty, outbound delivery succeeds, and the completion call returns
text; this covers both short-circuit paths and the full reply cycle.  An
internal failure such as a completion error instead escapes as an exception
(see the counterexample). -/
theorem C1_ok_acknowledgment (endCheck : Option String → ChatSession → Bool)
    (opts : ChatOptions) (env : HandlerEnv) (sender : Sender)
    (chat0 : ChatSession) (t : String)
    (hopt : opts.start_system_message = some t)
    (hne : chat0.messages ≠ [])
    (hdel : env.delivery_ok = true)
    (hcomp : ∀ msgs, ∃ r, env.completion msgs = Except.ok r) :
    (reply_to_whatsapp_message endCheck opts env sender chat0).result =
      HttpResult.ok := by
  cases hsc : message_empty_or_goodbye endCheck env.normalized_msg
      (refreshed_chat (pyFormat2 t sender.name env.today) chat0) with
  | some s =>
      rw [handler_shortcircuit endCheck opts env sender chat0 t s hopt hne hsc hdel]
  | none =>
      obtain ⟨raw, hc⟩ := hcomp
        (add_message (refreshed_chat (pyFormat2 t sender.name env.today) chat0)
          (env.normalized_msg.getD "") Role.user).messages
      cases himg : (verify_image_generation (pyStrip raw)).2 with
      | none =>
          rw [handler_main_ok_noimg endCheck opts env sender chat0 t raw hopt hne
            hsc hc himg]
      | some p =>
          rw [handler_main_ok_img endCheck opts env sender chat0 t raw p hopt hne
            hsc hc himg]

/-- C1 witness: a successful "Hello" cycle acknowledged with ok. -/
theorem C1_witness :
    (⟨"gpt-3.5-turbo", none, some "T", goodbye_literal, true, true⟩ :
        ChatOptions).start_system_message = some "T" ∧
    (⟨⟨"+1234567890", "Test User"⟩, [⟨Role.system, "seed"⟩], none,
        goodbye_literal⟩ : ChatSession).messages ≠ [] ∧
    (reply_to_whatsapp_message check_conversation_end
      ⟨"gpt-3.5-turbo", none, some "T", goodbye_literal, true, true⟩
      ⟨"2026-10-12", some "Hello", fun _ => Except.ok "Hey there!", true⟩
      ⟨"+1234567890", "Test User"⟩
      ⟨⟨"+1234567890", "Test User"⟩, [⟨Role.system, "seed"⟩], none,
        goodbye_literal⟩).result = HttpResult.ok := by
  refine ⟨by decide, by decide, ?_⟩
  exact C1_ok_acknowledgment check_conversation_end
    ⟨"gpt-3.5-turbo", none, some "T", goodbye_literal, true, true⟩
    ⟨"2026-10-12", some "Hello", fun _ => Except.ok "Hey there!", true⟩
    ⟨"+1234567890", "Test User"⟩
    ⟨⟨"+1234567890", "Test User"⟩, [⟨Role.system, "seed"⟩], none, goodbye_literal⟩
    "T" (by decide) (by decide) (by decide) (fun _ => ⟨"Hey there!", rfl⟩)

/-- C5: the concrete directive scenario splits as specified, and in a full
reply cycle whose completion text carries an image directive, the delivered
reply is the directive-stripped text, and the `system`-role marker entry is
appended to the session strictly before image generation is invoked (the
trace ends with the marker append followed by the generation call). -/
theorem C5_image_directive (endCheck : Option String → ChatSession → Bool)
    (opts : ChatOptions) (env : HandlerEnv) (sender : Sender)
    (chat0 : ChatSession) (t raw vis p : String)
    (hopt : opts.start_system_message = some t)
    (hne : chat0.messages ≠ [])
    (hdel : env.delivery_ok = true)
    (hsc : message_empty_or_goodbye endCheck env.normalized_msg
        (refreshed_chat (pyFormat2 t sender.name env.today) chat0) = none)
    (hcomp : env.completion
        (add_message (refreshed_chat (pyFormat2 t sender.name env.today) chat0)
          (env.normalized_msg.getD "") Role.user).messages = Except.ok raw)
    (himg : verify_image_generation (pyStrip raw) = (vis, some p)) :
    verify_image_generation "Here you go [img:\"a red bicycle\"]" =
      ("Here you go", some "a red bicycle") ∧
    (∃ pre, (reply_to_whatsapp_message endCheck opts env sender chat0).events =
      pre ++ [Event.markerAppended p, Event.imageGenerated p] ∧
      Event.sent vis chat0.sender.phone_number ∈ pre) ∧
    Message.mk Role.system (img_marker p) ∈
      (reply_to_whatsapp_message endCheck opts env sender chat0).chat.messages := by
  have h2 : (verify_image_generation (pyStrip raw)).2 = some p := by rw [himg]
  have h1 : (verify_image_generation (pyStrip raw)).1 = vis := by rw [himg]
  rw [handler_main_ok_img endCheck opts env sender chat0 t raw p hopt hne hsc
    hcomp h2]
  refine ⟨by decide, ⟨_, rfl, ?_⟩, ?_⟩
  · simp [h1, hdel]
  · simp [add_message]

/-- C5 witness: completion text `Here you go [img:"a red bicycle"]` on a
two-message session; the delivered reply is `Here you go` and the marker
precedes generation. -/
theorem C5_witness :
    (⟨"gpt-3.5-turbo", none, some "T", goodbye_literal, true, true⟩ :
        ChatOptions).start_system_message = some "T" ∧
    (⟨⟨"+1234567890", "Test User"⟩, [⟨Role.system, "seed"⟩, ⟨Role.user, "old"⟩],
        none, goodbye_literal⟩ : ChatSession).messages ≠ [] ∧
    message_empty_or_goodbye check_conversation_end (some "draw me a bicycle")
      (refreshed_chat (pyFormat2 "T" "Test User" "2026-10-12")
        ⟨⟨"+1234567890", "Test User"⟩, [⟨Role.system, "seed"⟩, ⟨Role.user, "old"⟩],
          none, goodbye_literal⟩) = none ∧
    verify_image_generation
      (pyStrip "Here you go [img:\"a red bicycle\"]") =
      ("Here you go", some "a red bicycle") ∧
    (verify_image_generation "Here you go [img:\"a red bicycle\"]" =
      ("Here you go", some "a red bicycle") ∧
    (∃ pre, (reply_to_whatsapp_message check_conversation_end
        ⟨"gpt-3.5-turbo", none, some "T", goodbye_literal, true, true⟩
        ⟨"2026-10-12", some "draw me a bicycle",
          fun _ => Except.ok "Here you go [img:\"a red bicycle\"]", true⟩
        ⟨"+1234567890", "Test User"⟩
        ⟨⟨"+1234567890", "Test User"⟩, [⟨Role.system, "seed"⟩, ⟨Role.user, "old"⟩],
          none, goodbye_literal⟩).events =
      pre ++ [Event.markerAppended "a red bicycle",
        Event.imageGenerated "a red bicycle"] ∧
      Event.sent "Here you go" "+1234567890" ∈ pre) ∧
    Message.mk Role.system (img_marker "a red bicycle") ∈
      (reply_to_whatsapp_message check_conversation_end
        ⟨"gpt-3.5-turbo", none, some "T", goodbye_literal, true, true⟩
        ⟨"2026-10-12", some "draw me a bicycle",
          fun _ => Except.ok "Here you go [img:\"a red bicycle\"]", true⟩
        ⟨"+1234567890", "Test User"⟩
        ⟨⟨"+1234567890", "Test User"⟩, [⟨Role.system, "seed"⟩, ⟨Role.user, "old"⟩],
          none, goodbye_literal⟩).chat.messages) := by
  refine ⟨by decide, by decide, by decide, by decide, ?_⟩
  exact C5_image_directive check_conversation_end
    ⟨"gpt-3.5-turbo", none, some "T", goodbye_literal, true, true⟩
    ⟨"2026-10-12", some "draw me a bicycle",
      fun _ => Except.ok "Here you go [img:\"a red bicycle\"]", true⟩
    ⟨"+1234567890", "Test User"⟩
    ⟨⟨"+1234567890", "Test User"⟩, [⟨Role.system, "seed"⟩, ⟨Role.user, "old"⟩],
      none, goodbye_literal⟩
    "T" "Here you go [img:\"a red bicycle\"]" "Here you go" "a red bicycle"
    (by decide) (by decide) (by decide) (by decide) rfl (by decide)

/-- C6 is false on the code as stated: with the OpenAI client unavailable,
`chat_completion` raises and the error is surfaced, but the orchestration
handler does not catch it and sends no apology — the trace of the failing
request contains no outbound send at all. -/
theorem C6_counterexample :
    (reply_to_whatsapp_message check_conversation_end
      ⟨"gpt-3.5-turbo", none, some "T", goodbye_literal, true, true⟩
      ⟨"2026-10-12", some "Hello", chat_completion none, true⟩
      ⟨"+1234567890", "Test User"⟩
      ⟨⟨"+1234567890", "Test User"⟩, [⟨Role.system, "seed"⟩], none,
        goodbye_literal⟩).result ≠ HttpResult.ok ∧
    ((reply_to_whatsapp_message check_conversation_end
      ⟨"gpt-3.5-turbo", none, some "T", goodbye_literal, true, true⟩
      ⟨"2026-10-12", some "Hello", chat_completion none, true⟩
      ⟨"+1234567890", "Test User"⟩
      ⟨⟨"+1234567890", "Test User"⟩, [⟨Role.system, "seed"⟩], none,
        goodbye_literal⟩).events.all fun e =>
        match e with
        | Event.sent _ _ => false
        | _ => true) = true := by decide

/-- C6 (amended): when the completion call fails, the reply-generation step
aborts with an error that is surfaced to the orchestration handler, but the
handler does not catch it: the exception escapes (no ok acknowledgment),
no message — in particular no apology — is sent to the user, and the
session is not saved. -/
theorem C6_completion_error_no_apology
    (endCheck : Option String → ChatSession → Bool)
    (opts : ChatOptions) (env : HandlerEnv) (sender : Sender)
    (chat0 : ChatSession) (t e : String)
    (hopt : opts.start_system_message = some t)
    (hne : chat0.messages ≠ [])
    (hsc : message_empty_or_goodbye endCheck env.normalized_msg
        (refreshed_chat (pyFormat2 t sender.name env.today) chat0) = none)
    (hcomp : env.completion
        (add_message (refreshed_chat (pyFormat2 t sender.name env.today) chat0)
          (env.normalized_msg.getD "") Role.user).messages = Except.error e) :
    (reply_to_whatsapp_message endCheck opts env sender chat0).result =
      HttpResult.exception e ∧
    ((reply_to_whatsapp_message endCheck opts env sender chat0).events.all fun ev =>
      match ev with
      | Event.sent _ _ => false
      | _ => true) = true ∧
    (reply_to_whatsapp_message endCheck opts env sender chat0).saved = false := by
  rw [handler_completion_error endCheck opts env sender chat0 t e hopt hne hsc hcomp]
  refine ⟨rfl, ?_, rfl⟩
  dsimp only
  by_cases hlen :
      (refreshed_chat (pyFormat2 t sender.name env.today) chat0).messages.length = 1 <;>
    simp [hlen]

/-- C6 witness: the client-unavailable failure of `chat_completion` driving
the handler; the `RuntimeError` escapes and nothing is sent or saved. -/
theorem C6_witness :
    (⟨"gpt-3.5-turbo", none, some "T", goodbye_literal, true, true⟩ :
        ChatOptions).start_system_message = some "T" ∧
    (⟨⟨"+1234567890", "Test User"⟩, [⟨Role.system, "seed"⟩], none,
        goodbye_literal⟩ : ChatSession).messages ≠ [] ∧
    ((reply_to_whatsapp_message check_conversation_end
      ⟨"gpt-3.5-turbo", none, some "T", goodbye_literal, true, true⟩
      ⟨"2026-10-12", some "Hello", chat_completion none, true⟩
      ⟨"+1234567890", "Test User"⟩
      ⟨⟨"+1234567890", "Test User"⟩, [⟨Role.system, "seed"⟩], none,
        goodbye_literal⟩).result =
      HttpResult.exception "RuntimeError: OpenAI client is not available" ∧
    ((reply_to_whatsapp_message check_conversation_end
      ⟨"gpt-3.5-turbo", none, some "T", goodbye_literal, true, true⟩
      ⟨"2026-10-12", some "Hello", chat_completion none, true⟩
      ⟨"+1234567890", "Test User"⟩
      ⟨⟨"+1234567890", "Test User"⟩, [⟨Role.system, "seed"⟩], none,
        goodbye_literal⟩).events.all fun ev =>
      match ev with
      | Event.sent _ _ => false
      | _ => true) = true ∧
    (reply_to_whatsapp_message check_conversation_end
      ⟨"gpt-3.5-turbo", none, some "T", goodbye_literal, true, true⟩
      ⟨"2026-10-12", some "Hello", chat_completion none, true⟩
      ⟨"+1234567890", "Test User"⟩
      ⟨⟨"+1234567890", "Test User"⟩, [⟨Role.system, "seed"⟩], none,
        goodbye_literal⟩).saved = false) := by
  refine ⟨by decide, by decide, ?_⟩
  exact C6_completion_error_no_apology check_conversation_end
    ⟨"gpt-3.5-turbo", none, some "T", goodbye_literal, true, true⟩
    ⟨"2026-10-12", some "Hello", chat_completion none, true⟩
    ⟨"+1234567890", "Test User"⟩
    ⟨⟨"+1234567890", "Test User"⟩, [⟨Role.system, "seed"⟩], none, goodbye_literal⟩
    "T" "RuntimeError: OpenAI client is not available"
    (by decide) (by decide) (by decide) rfl

/-- C8 is false on the code as stated: `chat_completion` returns the first
choice's `message.content` verbatim, so when the provider's text carries
surrounding whitespace the returned string differs from its own stripped
form. -/
theorem C8_counterexample :
    chat_completion (some fun _ => [⟨" Hey there! "⟩]) [] =
      Except.ok " Hey there! " ∧
    pyStrip " Hey there! " ≠ " Hey there! " :=
  ⟨rfl, by decide⟩

/-- C8 (amended): the `.strip()` is applied at the call site in the
handler, not inside `chat_completion`: in a full reply cycle without an
image directive, the text delivered to the user and recorded as the
assistant turn is exactly the completion text stripped of surrounding
whitespace. -/
theorem C8_reply_stripped_at_call_site
    (endCheck : Option String → ChatSession → Bool)
    (opts : ChatOptions) (env : HandlerEnv) (sender : Sender)
    (chat0 : ChatSession) (t raw : String)
    (hopt : opts.start_system_message = some t)
    (hne : chat0.messages ≠ [])
    (hdel : env.delivery_ok = true)
    (hsc : message_empty_or_goodbye endCheck env.normalized_msg
        (refreshed_chat (pyFormat2 t sender.name env.today) chat0) = none)
    (hcomp : env.completion
        (add_message (refreshed_chat (pyFormat2 t sender.name env.today) chat0)
          (env.normalized_msg.getD "") Role.user).messages = Except.ok raw)
    (himg : (verify_image_generation (pyStrip raw)).2 = none) :
    Event.sent (pyStrip raw) chat0.sender.phone_number ∈
      (reply_to_whatsapp_message endCheck opts env sender chat0).events ∧
    Event.assistantAppended (pyStrip raw) ∈
      (reply_to_whatsapp_message endCheck opts env sender chat0).events := by
  have hvis := verify_image_generation_of_none (pyStrip raw) himg
  rw [handler_main_ok_noimg endCheck opts env sender chat0 t raw hopt hne hsc
    hcomp himg]
  dsimp only
  rw [hvis]
  constructor <;> simp [hdel]

/-- C8 witness: completion text ` Hey there! ` delivered and recorded as
`Hey there!`. -/
theorem C8_witness :
    (⟨"gpt-3.5-turbo", none, some "T", goodbye_literal, true, true⟩ :
        ChatOptions).start_system_message = some "T" ∧
    (⟨⟨"+1234567890", "Test User"⟩, [⟨Role.system, "seed"⟩], none,
        goodbye_literal⟩ : ChatSession).messages ≠ [] ∧
    (Event.sent (pyStrip " Hey there! ") "+1234567890" ∈
      (reply_to_whatsapp_message check_conversation_end
        ⟨"gpt-3.5-turbo", none, some "T", goodbye_literal, true, true⟩
        ⟨"2026-10-12", some "Hello", fun _ => Except.ok " Hey there! ", true⟩
        ⟨"+1234567890", "Test User"⟩
        ⟨⟨"+1234567890", "Test User"⟩, [⟨Role.system, "seed"⟩], none,
          goodbye_literal⟩).events ∧
    Event.assistantAppended (pyStrip " Hey there! ") ∈
      (reply_to_whatsapp_message check_conversation_end
        ⟨"gpt-3.5-turbo", none, some "T", goodbye_literal, true, true⟩
        ⟨"2026-10-12", some "Hello", fun _ => Except.ok " Hey there! ", true⟩
        ⟨"+1234567890", "Test User"⟩
        ⟨⟨"+1234567890", "Test User"⟩, [⟨Role.system, "seed"⟩], none,
          goodbye_literal⟩).events) := by
  refine ⟨by decide, by decide, ?_⟩
  exact C8_reply_stripped_at_call_site check_conversation_end
    ⟨"gpt-3.5-turbo", none, some "T", goodbye_literal, true, true⟩
    ⟨"2026-10-12", some "Hello", fun _ => Except.ok " Hey there! ", true⟩
    ⟨"+1234567890", "Test User"⟩
    ⟨⟨"+1234567890", "Test User"⟩, [⟨Role.system, "seed"⟩], none, goodbye_literal⟩
    "T" " Hey there! " (by decide) (by decide) (by decide) (by decide) rfl (by decide)

/-- C7: the code has no literal default for the start template.  When the
`CHAT_START_TEMPLATE` variable is unset, the module-level `start_template`
stays `None` (contradicting the adjacent source comment "or use a
default"), and the handler's system-prompt formatting step then raises an
`AttributeError` on every request instead of succeeding. -/
theorem C7_unset_template_crashes (fs : FileSystem) (u d : String)
    (endCheck : Option String → ChatSession → Bool) (env : HandlerEnv)
    (sender : Sender) (chat0 : ChatSession) (model : String)
    (agent : Option String) (gb : String) (vt ai : Bool) :
    start_template none fs = none ∧
    format_start_message (start_template none fs) u d =
      Except.error "AttributeError: NoneType object has no attribute format" ∧
    (reply_to_whatsapp_message endCheck
        ⟨model, agent, start_template none fs, gb, vt, ai⟩ env sender chat0).result =
      HttpResult.exception
        "AttributeError: NoneType object has no attribute format" := by
  refine ⟨rfl, rfl, ?_⟩
  rw [handler_format_none endCheck ⟨model, agent, start_template none fs, gb, vt, ai⟩
    env sender chat0 rfl]

end WhatsAppBot
